import Mathlib

/-!
Verification of the PrimeQA usage notebooks.

The repository consists of two Jupyter notebooks:

* `notebooks/mrc/mrc_usage_predict_mode.ipynb` loads a pretrained extractive
  reader twice and calls its `apply` operation on three hard-coded
  question/context pairs; the notebook records the full JSON output of each
  call (candidate answers with span offsets, extracted text and confidence
  scores).
* the dense-IR notebook trains a DPR bi-encoder (`BiEncoderTrainer`),
  indexes a TSV collection (`DPRIndexer`), and searches the index
  (`DPRSearcher`) in a query-list mode and in a file-driven batch mode,
  recording the outputs.

The collaborator implementations (`ExtractiveReader`, `BiEncoderTrainer`,
`DPRIndexer`, `DPRSearcher`) live outside these files, so they are modelled
from the specification where needed; the notebooks' literal inputs, argument
lists, recorded outputs, and the order of their operations are embedded
directly from the notebook sources.
-/

set_option maxRecDepth 100000

/-! ## Extractive reader: data model and the recorded calls -/

/-- An answer span: character offsets into the context passage, start
inclusive, end exclusive (as in the notebook's printed `span_answer`). -/
structure SpanAnswer where
  start_position : Nat
  end_position : Nat
  deriving DecidableEq, Repr

/-- One candidate answer as printed by the notebook: the example id, the
extracted span text, the span offsets, and the confidence score.  Scores are
modelled as rationals carrying the exact decimal digits the notebook records. -/
structure Answer where
  example_id : String
  span_answer_text : String
  span_answer : SpanAnswer
  confidence_score : ℚ
  deriving DecidableEq, Repr

/-- A recorded invocation of the reader's apply operation: the list of
questions, the parallel list of context-passage lists, and the returned
per-question candidate lists. -/
structure ReaderCall where
  questions : List String
  contexts : List (List String)
  answers : List (List Answer)
  deriving DecidableEq, Repr

/-- Questions of the first recorded apply call in the notebook. -/
def call1_questions : List String :=
  ["\u00bfQui\u00e9n pase\u00f3 al perro?"]

/-- Context-passage lists of the first recorded apply call. -/
def call1_contexts : List (List String) :=
  [["Alice walks the cat. Bob walks the dog"]]

/-- Candidate answers printed by the first recorded apply call. -/
def call1_answers : List (List Answer) :=
  [[
    { example_id := "0",
      span_answer_text := "Bob",
      span_answer := { start_position := 21, end_position := 24 },
      confidence_score := mkRat 38157925496567646 (10 ^ 17) },
    { example_id := "0",
      span_answer_text := "Alice walks the cat. Bob",
      span_answer := { start_position := 0, end_position := 24 },
      confidence_score := mkRat 3526266656659346 (10 ^ 16) },
    { example_id := "0",
      span_answer_text := "Alice",
      span_answer := { start_position := 0, end_position := 5 },
      confidence_score := mkRat 26579407936838895 (10 ^ 17) }
  ]]

/-- The first recorded reader call. -/
def call1 : ReaderCall :=
  { questions := call1_questions, contexts := call1_contexts, answers := call1_answers }

/-- Questions of the second recorded apply call in the notebook. -/
def call2_questions : List String :=
  ["Which country is Canberra located in?"]

/-- Context-passage lists of the second recorded apply call. -/
def call2_contexts : List (List String) :=
  [["Canberra is the capital city of Australia. \nFounded following the federation of the colonies of Australia \nas the seat of government for the new nation, it is Australia\x27s \nlargest inland city"]]

/-- Candidate answers printed by the second recorded apply call. -/
def call2_answers : List (List Answer) :=
  [[
    { example_id := "0",
      span_answer_text := "Australia",
      span_answer := { start_position := 32, end_position := 41 },
      confidence_score := mkRat 7988516960240685 (10 ^ 16) },
    { example_id := "0",
      span_answer_text := "Australia. \nFounded following the federation of the colonies of Australia \nas the seat of government for the new nation, it is Australia",
      span_answer := { start_position := 32, end_position := 168 },
      confidence_score := mkRat 10721889035823319 (10 ^ 17) },
    { example_id := "0",
      span_answer_text := "Australia. \nFounded following the federation of the colonies of Australia",
      span_answer := { start_position := 32, end_position := 105 },
      confidence_score := mkRat 9392941361769835 (10 ^ 17) }
  ]]

/-- The second recorded reader call. -/
def call2 : ReaderCall :=
  { questions := call2_questions, contexts := call2_contexts, answers := call2_answers }

/-- Question of the third recorded apply call in the notebook. -/
def call3_questions : List String :=
  ["seven union territories of india and their capital"]

/-- The third recorded call's context passage, split into chunk literals
(concatenating the chunks in order gives exactly the notebook's context
string; the split keeps every string literal short enough for kernel
evaluation). -/
def ctx3c0 : String := "Category : indian Union Territory capitals - wikipedia Help Category : indian Union Territory capitals Jump to : navigation , search * The 7 Union Territories of India and their capitals is : "
def ctx3c1 : String := "* Andaman and Nicobar Islands -- Port Blair * Chandigarh -- Chandigarh * Dadra and Nagar Haveli -- Silvassa * Daman and Diu -- Daman * Lakshwadweep -- Kavaratti * National Capital Territory -- New Delhi * Puducherry -- Pondicherry"
def ctx3c2 : String := " * * * State and Union Territory capitals of India * Agartala * Aizawl * Amaravati ( de facto ) * Bangalore * Bhopal * Bhubaneswar * Chandigarh * Chennai * Daman * Dehradun ( interim ) * New Delhi * Dispur * Gandhinagar * "
def ctx3c3 : String := "Gangtok * Hyderabad * Imphal * Itanagar * Jaipur * Jammu ( in winter ) * Kavaratti * Kohima * Kolkata * Lucknow * Mumbai * Panaji * Patna * Pondicherry * Port Blair * Raipur * Ranchi * Shillong * Shimla * Silvassa * Srinaga"
def ctx3c4 : String := "r ( in summer ) * Thiruvananthapuram * * * States and union territories of India States * Arunachal Pradesh * Andhra Pradesh * Assam * Bihar * Chhattisgarh * Goa * Gujarat * Haryana * Himachal Pradesh * Jammu and Kashmir * "
def ctx3c5 : String := "Jharkhand * Karnataka * Kerala * Madhya Pradesh * Maharashtra * Manipur * Meghalaya * Mizoram * Nagaland * Odisha * Punjab * Rajasthan * Sikkim * Tamil Nadu * Telangana * Tripura * Uttar Pradesh * Uttarakhand * West Bengal"
def ctx3c6 : String := " Union Territories * Andaman and Nicobar Islands * Chandigarh * Dadra and Nagar Haveli * National Capital Territory of Delhi * Daman and Diu * Lakshadweep * Puducherry * Capitals in India * Proposed states and territories * Historical Regions * British Provinces"
def ctx3c7 : String := " This category has the following 7 subcategories , out of 7 total . * \u25ba Chandigarh \u200e ( 18 C , 7 P ) * \u25ba Daman , Daman and Diu \u200e ( 3 P ) * \u25ba Kavaratti \u200e ( 1 P ) * \u25ba New Delhi \u200e ( 6 C , 85 P ) * \u25ba Pondicherry ( city ) \u200e ( 3 C , 3 P ) * \u25ba Port Blair \u200e ( 1"
def ctx3c8 : String := " C , 12 P ) * \u25ba Silvassa \u200e ( 1 C , 2 P ) Pages in category \x60\x60 indian Union Territory capitals \x27\x27 The following 7 pages are in this category , out of 7 total . This list may not reflect recent changes ( learn more ) . * Chandigarh * Daman , Daman and Di"
def ctx3c9 : String := "u * Kavaratti * New Delhi * Pondicherry * Port Blair * Silvassa Retrieved from \x60\x60 https://en.wikipedia.org/w/index.php?title=Category:Indian_Union_Territory_capitals&oldid=836071111 \x27\x27 Categories : * Indian capital cities * Union Territories of India *"
def ctx3c10 : String := " Cities and towns in India * * Talk * * * * * * * * * * * * * * * * Help * About Wikipedia * * * * * * * * * * * * * * \u09ac\u09be\u0982\u09b2\u09be * \u092e\u0948\u0925\u093f\u0932\u0940 * \u0d2e\u0d32\u0d2f\u0d3e\u0d33\u0d02 Edit links * This page was last edited on 12 April 2018 , at 14 : 33 . * * * About Wikipedia * * * * * * * * "

/-- The context passage of the third recorded apply call. -/
def call3_context : String :=
  ctx3c0 ++ ctx3c1 ++ ctx3c2 ++ ctx3c3 ++ ctx3c4 ++ ctx3c5 ++ ctx3c6 ++ ctx3c7 ++ ctx3c8 ++ ctx3c9 ++ ctx3c10

/-- Context-passage lists of the third recorded apply call. -/
def call3_contexts : List (List String) := [[call3_context]]

/-- Span text of the third call's candidate 2, split into chunk literals
(their concatenation is exactly the notebook's printed span text). -/
def a3t2c0 : String := "* Andaman and Nicobar Islands -- Port Blair * Chandigarh -- Chandigarh * Dadra and Nagar Haveli -- Silvassa * Daman and Diu -- Daman * Lakshwadweep -- Kavaratti * National Capital Territory -- New Delhi * Puducherry -- Pondicherry"
def a3t2c1 : String := " * * * State and Union Territory capitals of India * Agartala * Aizawl * Amaravati ( de facto ) * Bangalore * Bhopal * Bhubaneswar * Chandigarh * Chennai * Daman * Dehradun ( interim ) * New Delhi * Dispur * Gandhinagar * "
def a3t2c2 : String := "Gangtok * Hyderabad * Imphal * Itanagar * Jaipur * Jammu ( in winter ) * Kavaratti * Kohima * Kolkata * Lucknow * Mumbai * Panaji * Patna * Pondicherry * Port Blair * Raipur * Ranchi * Shillong * Shimla * Silvassa * Srinaga"
def a3t2c3 : String := "r ( in summer ) * Thiruvananthapuram * * * States and union territories of India States * Arunachal Pradesh * Andhra Pradesh * Assam * Bihar * Chhattisgarh * Goa * Gujarat * Haryana * Himachal Pradesh * Jammu and Kashmir * "
def a3t2c4 : String := "Jharkhand * Karnataka * Kerala * Madhya Pradesh * Maharashtra * Manipur * Meghalaya * Mizoram * Nagaland * Odisha * Punjab * Rajasthan * Sikkim * Tamil Nadu * Telangana * Tripura * Uttar Pradesh * Uttarakhand * West Bengal"
def a3t2c5 : String := " Union Territories * Andaman and Nicobar Islands * Chandigarh * Dadra and Nagar Haveli * National Capital Territory of Delhi * Daman and Diu * Lakshadweep * Puducherry * Capitals in India * Proposed states and territories * Historical Regions * British Provinces"

/-- Span text of the third call's candidate 3, split into chunk literals
(their concatenation is exactly the notebook's printed span text). -/
def a3t3c0 : String := "* Andaman and Nicobar Islands -- Port Blair * Chandigarh -- Chandigarh * Dadra and Nagar Haveli -- Silvassa * Daman and Diu -- Daman * Lakshwadweep -- Kavaratti * National Capital Territory -- New Delhi * Puducherry -- Pondicherry"
def a3t3c1 : String := " * * * State and Union Territory capitals of India * Agartala * Aizawl * Amaravati ( de facto ) * Bangalore * Bhopal * Bhubaneswar * Chandigarh * Chennai * Daman * Dehradun ( interim ) * New Delhi * Dispur * Gandhinagar * "
def a3t3c2 : String := "Gangtok * Hyderabad * Imphal * Itanagar * Jaipur * Jammu ( in winter ) * Kavaratti * Kohima * Kolkata * Lucknow * Mumbai * Panaji * Patna * Pondicherry * Port Blair * Raipur * Ranchi * Shillong * Shimla * Silvassa * Srinaga"
def a3t3c3 : String := "r ( in summer ) * Thiruvananthapuram * * * States and union territories of India States * Arunachal Pradesh * Andhra Pradesh * Assam * Bihar * Chhattisgarh * Goa * Gujarat * Haryana * Himachal Pradesh * Jammu and Kashmir * "
def a3t3c4 : String := "Jharkhand * Karnataka * Kerala * Madhya Pradesh * Maharashtra * Manipur * Meghalaya * Mizoram * Nagaland * Odisha * Punjab * Rajasthan * Sikkim * Tamil Nadu * Telangana * Tripura * Uttar Pradesh * Uttarakhand * West Bengal"

/-- Candidate answers printed by the third recorded apply call. -/
def call3_answers : List (List Answer) :=
  [[
    { example_id := "0",
      span_answer_text := "* Andaman and Nicobar Islands -- Port Blair * Chandigarh -- Chandigarh * Dadra and Nagar Haveli -- Silvassa * Daman and Diu -- Daman * Lakshwadweep -- Kavaratti * National Capital Territory -- New Delhi * Puducherry -- Pondicherry",
      span_answer := { start_position := 192, end_position := 422 },
      confidence_score := mkRat 47059373601539756 (10 ^ 17) },
    { example_id := "0",
      span_answer_text := a3t2c0 ++ a3t2c1 ++ a3t2c2 ++ a3t2c3 ++ a3t2c4 ++ a3t2c5,
      span_answer := { start_position := 192, end_position := 1574 },
      confidence_score := mkRat 3351108257060536 (10 ^ 16) },
    { example_id := "0",
      span_answer_text := a3t3c0 ++ a3t3c1 ++ a3t3c2 ++ a3t3c3 ++ a3t3c4,
      span_answer := { start_position := 192, end_position := 1312 },
      confidence_score := mkRat 19429543827854873 (10 ^ 17) }
  ]]

/-- The third recorded reader call. -/
def call3 : ReaderCall :=
  { questions := call3_questions, contexts := call3_contexts, answers := call3_answers }

/-- All apply calls recorded in the reading-comprehension notebook. -/
def recordedReaderCalls : List ReaderCall := [call1, call2, call3]

/-- Extract the character span `[s, e)` of a context string (code-point
slicing of the context, start inclusive, end exclusive). -/
def extractSpan (ctx : String) (s e : Nat) : String :=
  String.mk ((ctx.toList.drop s).take (e - s))

/-- `true` when the mapped keys appear in non-increasing order. -/
def sortedDescBy (key : Answer → ℚ) : List Answer → Bool
  | [] => true
  | [_] => true
  | a :: b :: rest => decide (key b ≤ key a) && sortedDescBy key (b :: rest)

/-- Every candidate of the call extracts exactly the span its offsets delimit
from one of the supplied context passages. -/
def spanFaithful (c : ReaderCall) : Prop :=
  ∀ p ∈ c.answers.zip c.contexts, ∀ a ∈ p.1,
    ∃ ctx ∈ p.2,
      a.span_answer_text = extractSpan ctx a.span_answer.start_position a.span_answer.end_position

/-! Helper lemmas for computing `extractSpan` on the chunked third context
without deep kernel evaluation. -/

lemma str_eq_of_data {s t : String} (h : s.data = t.data) : s = t := by
  cases s
  cases t
  exact congrArg String.mk h

lemma data_append (s t : String) : (s ++ t).data = s.data ++ t.data := rfl

lemma extract_concat (p m s : List Char) (a b : Nat) (hp : p.length = a)
    (hm : m.length = b - a) : ((p ++ (m ++ s)).drop a).take (b - a) = m := by
  subst hp
  rw [← hm, List.drop_left, List.take_left]

lemma call3_extract1 :
    extractSpan call3_context 192 422 = "* Andaman and Nicobar Islands -- Port Blair * Chandigarh -- Chandigarh * Dadra and Nagar Haveli -- Silvassa * Daman and Diu -- Daman * Lakshwadweep -- Kavaratti * National Capital Territory -- New Delhi * Puducherry -- Pondicherry" := by
  apply str_eq_of_data
  show (call3_context.data.drop 192).take (422 - 192) = ("* Andaman and Nicobar Islands -- Port Blair * Chandigarh -- Chandigarh * Dadra and Nagar Haveli -- Silvassa * Daman and Diu -- Daman * Lakshwadweep -- Kavaratti * National Capital Territory -- New Delhi * Puducherry -- Pondicherry" : String).data
  have hg : call3_context.data =
      ctx3c0.data ++ (ctx3c1.data ++
        (ctx3c2.data ++ (ctx3c3.data ++ (ctx3c4.data ++ (ctx3c5.data ++
          (ctx3c6.data ++ (ctx3c7.data ++ (ctx3c8.data ++ (ctx3c9.data ++ ctx3c10.data))))))))) := by
    simp only [call3_context, data_append, List.append_assoc]
  rw [hg]
  rw [extract_concat _ _ _ 192 422 (by decide) (by decide)]
  decide

lemma call3_extract2 :
    extractSpan call3_context 192 1574 = a3t2c0 ++ a3t2c1 ++ a3t2c2 ++ a3t2c3 ++ a3t2c4 ++ a3t2c5 := by
  apply str_eq_of_data
  show (call3_context.data.drop 192).take (1574 - 192) =
    (a3t2c0 ++ a3t2c1 ++ a3t2c2 ++ a3t2c3 ++ a3t2c4 ++ a3t2c5).data
  have hg : call3_context.data =
      ctx3c0.data ++ ((ctx3c1.data ++ (ctx3c2.data ++ (ctx3c3.data ++ (ctx3c4.data ++ (ctx3c5.data ++ ctx3c6.data))))) ++
        (ctx3c7.data ++ (ctx3c8.data ++ (ctx3c9.data ++ ctx3c10.data)))) := by
    simp only [call3_context, data_append, List.append_assoc]
  rw [hg]
  rw [extract_concat _ _ _ 192 1574 (by decide) (by simp only [List.length_append]; decide)]
  rw [show a3t2c0 = ctx3c1 from by decide, show a3t2c1 = ctx3c2 from by decide,
    show a3t2c2 = ctx3c3 from by decide, show a3t2c3 = ctx3c4 from by decide,
    show a3t2c4 = ctx3c5 from by decide, show a3t2c5 = ctx3c6 from by decide]
  simp only [data_append, List.append_assoc]

lemma call3_extract3 :
    extractSpan call3_context 192 1312 = a3t3c0 ++ a3t3c1 ++ a3t3c2 ++ a3t3c3 ++ a3t3c4 := by
  apply str_eq_of_data
  show (call3_context.data.drop 192).take (1312 - 192) =
    (a3t3c0 ++ a3t3c1 ++ a3t3c2 ++ a3t3c3 ++ a3t3c4).data
  have hg : call3_context.data =
      ctx3c0.data ++ ((ctx3c1.data ++ (ctx3c2.data ++ (ctx3c3.data ++ (ctx3c4.data ++ ctx3c5.data)))) ++
        (ctx3c6.data ++ (ctx3c7.data ++ (ctx3c8.data ++ (ctx3c9.data ++ ctx3c10.data))))) := by
    simp only [call3_context, data_append, List.append_assoc]
  rw [hg]
  rw [extract_concat _ _ _ 192 1312 (by decide) (by simp only [List.length_append]; decide)]
  rw [show a3t3c0 = ctx3c1 from by decide, show a3t3c1 = ctx3c2 from by decide,
    show a3t3c2 = ctx3c3 from by decide, show a3t3c3 = ctx3c4 from by decide,
    show a3t3c4 = ctx3c5 from by decide]
  simp only [data_append, List.append_assoc]

lemma call3_spanFaithful : spanFaithful call3 := by
  intro p hp a ha
  have hz : call3.answers.zip call3.contexts =
      [(call3_answers.headD [], [call3_context])] := rfl
  rw [hz] at hp
  rw [List.mem_singleton] at hp
  subst hp
  fin_cases ha
  · exact ⟨call3_context, List.mem_singleton.mpr rfl, (call3_extract1).symm⟩
  · exact ⟨call3_context, List.mem_singleton.mpr rfl, (call3_extract2).symm⟩
  · exact ⟨call3_context, List.mem_singleton.mpr rfl, (call3_extract3).symm⟩

/-! ## The reading-comprehension notebook as a step sequence -/

/-- How an apply call receives its questions and contexts: written literally
in a notebook cell, or read from a file. -/
inductive ApplyInput
  | literalInput (questions : List String) (contexts : List (List String))
  | fileInput (path : String)
  deriving DecidableEq, Repr

/-- A reader operation of the reading-comprehension notebook: loading a
pretrained model, or applying a loaded model to an input. -/
inductive MrcStep
  | loadModel (model : String)
  | applyModel (model : String) (input : ApplyInput)
  deriving DecidableEq, Repr

/-- The model name of the first loaded reader (`reader`). -/
def tydiModel : String := "PrimeQA/tydiqa-primary-task-xlm-roberta-large"

/-- The model name of the second loaded reader (`list_reader`). -/
def listQaModel : String := "PrimeQA/tydiqa-ft-listqa_nq-task-xlm-roberta-large"

/-- The reader operations of `mrc_usage_predict_mode.ipynb`, cell by cell:
load `reader`, apply it twice on literal inputs, load `list_reader`, apply it
once on a literal input. -/
def mrcNotebookSteps : List MrcStep :=
  [ MrcStep.loadModel tydiModel,
    MrcStep.applyModel tydiModel (ApplyInput.literalInput call1_questions call1_contexts),
    MrcStep.applyModel tydiModel (ApplyInput.literalInput call2_questions call2_contexts),
    MrcStep.loadModel listQaModel,
    MrcStep.applyModel listQaModel (ApplyInput.literalInput call3_questions call3_contexts) ]

/-- Whether a step is an apply call. -/
def isApplyStep : MrcStep → Bool
  | MrcStep.applyModel _ _ => true
  | MrcStep.loadModel _ => false

/-- The model a step loads or applies. -/
def stepModel : MrcStep → String
  | MrcStep.loadModel m => m
  | MrcStep.applyModel m _ => m

/-- Whether a step is an apply call on hard-coded literal input. -/
def isLiteralApply : MrcStep → Bool
  | MrcStep.applyModel _ (ApplyInput.literalInput _ _) => true
  | _ => false

/-! ## The dense-IR notebook: argument lists and step order -/

/-- `os.path.join` as the notebook uses it (directory, slash, name). -/
def joinPath (dir name : String) : String := dir ++ "/" ++ name

/-- `test_files_location` of the dense-IR notebook. -/
def test_files_location : String := "../../../tests/resources/ir_dense"

/-- `text_triples_fn`: the TSV training file of [query, positive, negative] triples. -/
def text_triples_fn : String :=
  joinPath test_files_location "xorqa.train_ir_negs_5_poss_1_001pct_at_0pct_en.tsv"

/-- `collection_fn`: the TSV collection indexed by the notebook. -/
def collection_fn : String :=
  joinPath test_files_location "xorqa.train_ir_001pct_at_0_pct_collection_fornum.tsv"

/-- `queries_fn`: the TSV query file of the file-driven search. -/
def queries_fn : String :=
  joinPath test_files_location "xorqa.train_ir_001pct_at_0_pct_queries_fornum_en.tsv"

/-- `model_training_args` of the notebook, as a function of the temporary
output directory. -/
def model_training_args (output_dir : String) : List String :=
  ["prog",
   "--train_dir", text_triples_fn,
   "--output_dir", output_dir,
   "--full_train_batch_size", "1",
   "--num_train_epochs", "1",
   "--training_data_type", "text_triples"]

/-- `indexing_args` of the notebook. -/
def indexing_args (output_dir : String) : List String :=
  ["prog",
   "--dpr_ctx_encoder_path", joinPath output_dir "ctx_encoder",
   "--embed", "1of1",
   "--sharded_index",
   "--batch_size", "1",
   "--corpus", collection_fn,
   "--output_dir", output_dir]

/-- The first `search_args` of the notebook (query-list mode construction). -/
def search_args_query_list (output_dir : String) : List String :=
  ["prog",
   "--model_name_or_path", joinPath output_dir "qry_encoder",
   "--index_location", output_dir,
   "--output_dir", output_dir]

/-- The second `search_args` of the notebook (file-driven batch mode). -/
def search_args_batch (output_dir : String) : List String :=
  ["prog",
   "--queries", queries_fn,
   "--model_name_or_path", joinPath output_dir "qry_encoder",
   "--bsize", "1",
   "--index_location", output_dir,
   "--output_dir", output_dir,
   "--top_k", "1"]

/-- An operation of the dense-IR notebook. -/
inductive DenseStep
  | trainStep
  | indexStep
  | searchStep
  deriving DecidableEq, Repr

/-- The operations of the dense-IR notebook in cell order: `trainer.train()`,
`indexer.index()`, `searcher.search(..., mode = query_list)`,
`searcher.search()` (file-driven). -/
def denseNotebookSteps : List DenseStep :=
  [DenseStep.trainStep, DenseStep.indexStep, DenseStep.searchStep, DenseStep.searchStep]

/-- The single line of `ranked_passages.tsv` printed at the end of the
dense-IR notebook. -/
def recordedRankedLine : String := "-7239279093922981232\t1\t0\t91.072509765625"

/-- Split a character list at tabs. -/
def splitTabs : List Char → List (List Char)
  | [] => [[]]
  | c :: rest =>
    match splitTabs rest, decide (c = Char.ofNat 9) with
    | fields, false =>
      match fields with
      | [] => [[c]]
      | f :: fs => (c :: f) :: fs
    | fields, true => [] :: fields

/-- The tab-separated fields of a TSV line. -/
def tsvFields (s : String) : List String := (splitTabs s.toList).map String.mk


/-! ## Spec-modelled collaborators

The implementations of `BiEncoderTrainer`, `DPRIndexer` and `DPRSearcher`
are not among the repository's files (the notebooks import them); the
definitions below model them from the specification's description of the
collaborators, grounded in the argument lists and outputs the notebooks
record. -/

/-- `path` lies inside the directory `dir`. -/
def inDirectory (dir path : String) : Prop := ∃ rest, path = dir ++ rest

/-- The numeric value of a decimal digit character. -/
def digitVal (c : Char) : Option Nat :=
  if 48 ≤ c.toNat ∧ c.toNat ≤ 57 then some (c.toNat - 48) else none

/-- Accumulate decimal digits into a number. -/
def parseNatDigits : List Char → Nat → Option Nat
  | [], acc => some acc
  | c :: rest, acc => do parseNatDigits rest (acc * 10 + (← digitVal c))

/-- Parse a decimal numeral string. -/
def parseNatLit (s : String) : Option Nat :=
  match s.data with
  | [] => none
  | ds => parseNatDigits ds 0

/-- The trainer arguments the spec names: train-data path, output directory,
batch size, epoch count, data-format tag. -/
structure TrainerArgs where
  train_dir : String
  output_dir : String
  full_train_batch_size : Nat
  num_train_epochs : Nat
  training_data_type : String
  deriving DecidableEq, Repr

/-- The flag/value pairs of a command-line-style list (after the program
name every flag is followed by its value). -/
def argPairs : List String → Option (List (String × String))
  | [] => some []
  | flag :: v :: rest => (argPairs rest).map (fun ps => (flag, v) :: ps)
  | [_] => none

/-- The value of flag `k` among the parsed pairs. -/
def lookupArg (ps : List (String × String)) (k : String) : Option String :=
  (ps.find? (fun p => p.1 == k)).map (fun p => p.2)

/-- Modelled from the spec: `BiEncoderTrainer` "accepts a command-line-style
argument list (train-data path, output directory, batch size, epoch count,
data-format tag)"; its implementation is not among the repository's files.
The model parses the program name followed by the five documented
flag/value pairs. -/
def parseTrainerArgs (argv : List String) : Option TrainerArgs := do
  let ps ← argPairs argv.tail
  let td ← lookupArg ps "--train_dir"
  let od ← lookupArg ps "--output_dir"
  let bs ← parseNatLit (← lookupArg ps "--full_train_batch_size")
  let ep ← parseNatLit (← lookupArg ps "--num_train_epochs")
  let tt ← lookupArg ps "--training_data_type"
  pure ⟨td, od, bs, ep, tt⟩

/-- Modelled from the spec: the trainer "produces encoder checkpoints on
disk" in its output directory (the notebook's log records the query and
context encoders saved under `output_dir`, and the indexing and search cells
load them from `output_dir/ctx_encoder` and `output_dir/qry_encoder`); the
training loop itself is not among the repository's files.  The file system
is modelled as the list of paths present. -/
def BiEncoderTrainer.train (args : TrainerArgs) (fs : List String) : List String :=
  fs ++ [joinPath args.output_dir "qry_encoder",
         joinPath args.output_dir "ctx_encoder",
         joinPath args.output_dir "latest_checkpoint"]

/-- The indexer arguments of the notebook's indexing cell. -/
structure IndexerArgs where
  dpr_ctx_encoder_path : String
  embed : String
  sharded_index : Bool
  batch_size : Nat
  corpus : String
  output_dir : String
  deriving DecidableEq, Repr

/-- Accumulator for the indexer flag parser. -/
structure IndexerArgsAcc where
  dpr_ctx_encoder_path : Option String := none
  embed : Option String := none
  sharded_index : Bool := false
  batch_size : Option Nat := none
  corpus : Option String := none
  output_dir : Option String := none
  deriving Repr

/-- Read the indexer's flags; `--sharded_index` takes no value, every other
flag is followed by its value. -/
def readIndexerFlags : List String → IndexerArgsAcc → Option IndexerArgsAcc
  | [], acc => some acc
  | "--sharded_index" :: rest, acc =>
    readIndexerFlags rest { acc with sharded_index := true }
  | "--dpr_ctx_encoder_path" :: v :: rest, acc =>
    readIndexerFlags rest { acc with dpr_ctx_encoder_path := some v }
  | "--embed" :: v :: rest, acc =>
    readIndexerFlags rest { acc with embed := some v }
  | "--batch_size" :: v :: rest, acc =>
    readIndexerFlags rest { acc with batch_size := parseNatLit v }
  | "--corpus" :: v :: rest, acc =>
    readIndexerFlags rest { acc with corpus := some v }
  | "--output_dir" :: v :: rest, acc =>
    readIndexerFlags rest { acc with output_dir := some v }
  | _, _ => none

/-- Modelled from the spec: `DPRIndexer` "accepts an encoder checkpoint path
and a TSV corpus"; its implementation is not among the repository's files. -/
def parseIndexerArgs (argv : List String) : Option IndexerArgs := do
  let acc ← readIndexerFlags argv.tail {}
  let p ← acc.dpr_ctx_encoder_path
  let em ← acc.embed
  let bs ← acc.batch_size
  let co ← acc.corpus
  let od ← acc.output_dir
  pure ⟨p, em, acc.sharded_index, bs, co, od⟩

/-- A row of the TSV corpus: document id, text, title (the column order of
the collection file the notebook displays). -/
structure CorpusRow where
  id : String
  text : String
  title : String
  deriving DecidableEq, Repr

/-- A TSV corpus: its header columns and its rows. -/
structure Corpus where
  header : List String
  rows : List CorpusRow
  deriving DecidableEq, Repr

/-- Modelled from the spec: `DPRIndexer.index` "produces a compressed
passage-record file and a vector index file" in the output directory (the
notebook records `passages_1_of_1.json.gz.records` and `index_1_of_1.faiss`
written there); the encoding and faiss index construction are not among the
repository's files.  Indexing requires a corpus whose TSV columns are id,
text, title. -/
def DPRIndexer.index (args : IndexerArgs) (corpus : Corpus) (fs : List String) :
    Option (List String) :=
  if corpus.header = ["id", "text", "title"] then
    some (fs ++ [joinPath args.output_dir "passages_1_of_1.json.gz.records",
                 joinPath args.output_dir "index_1_of_1.faiss"])
  else none

/-- The path is a compressed (gzip) JSON passage-record file. -/
def isCompressedRecordsFile (p : String) : Prop := ∃ pre, p = pre ++ ".json.gz.records"

/-- The path is a faiss vector-index file. -/
def isVectorIndexFile (p : String) : Prop := ∃ pre, p = pre ++ ".faiss"

/-- The searcher arguments: the query-encoder checkpoint path, the index
location, the output directory, and (in file-driven batch mode) the query
file, the batch size and the depth `top_k`. -/
structure SearcherArgs where
  model_name_or_path : String
  index_location : String
  output_dir : String
  queries : Option String := none
  bsize : Option Nat := none
  top_k : Option Nat := none
  deriving DecidableEq, Repr

/-- Accumulator for the searcher flag parser. -/
structure SearcherArgsAcc where
  model_name_or_path : Option String := none
  index_location : Option String := none
  output_dir : Option String := none
  queries : Option String := none
  bsize : Option Nat := none
  top_k : Option Nat := none
  deriving Repr

/-- Read the searcher's flag/value pairs. -/
def readSearcherFlags : List String → SearcherArgsAcc → Option SearcherArgsAcc
  | [], acc => some acc
  | "--model_name_or_path" :: v :: rest, acc =>
    readSearcherFlags rest { acc with model_name_or_path := some v }
  | "--index_location" :: v :: rest, acc =>
    readSearcherFlags rest { acc with index_location := some v }
  | "--output_dir" :: v :: rest, acc =>
    readSearcherFlags rest { acc with output_dir := some v }
  | "--queries" :: v :: rest, acc =>
    readSearcherFlags rest { acc with queries := some v }
  | "--bsize" :: v :: rest, acc =>
    readSearcherFlags rest { acc with bsize := parseNatLit v }
  | "--top_k" :: v :: rest, acc =>
    readSearcherFlags rest { acc with top_k := parseNatLit v }
  | _, _ => none

/-- Modelled from the spec: `DPRSearcher` "accepts an encoder checkpoint
path and an index location"; its implementation is not among the
repository's files. -/
def parseSearcherArgs (argv : List String) : Option SearcherArgs := do
  let acc ← readSearcherFlags argv.tail {}
  let mp ← acc.model_name_or_path
  let il ← acc.index_location
  let od ← acc.output_dir
  pure ⟨mp, il, od, acc.queries, acc.bsize, acc.top_k⟩

/-- A passage record of the index: document id, title, text. -/
structure Passage where
  pid : String
  title : String
  text : String
  deriving DecidableEq, Repr

/-- Per-query result record in query-list mode: parallel lists of titles,
texts and scores of the retrieved passages. -/
structure PassageResult where
  titles : List String
  texts : List String
  scores : List ℚ
  deriving DecidableEq, Repr

/-- "a comes before b" for ranking: the key of `b` does not exceed the key
of `a`. -/
def scoreGE {α : Type} (key : α → ℚ) (a b : α) : Prop := key b ≤ key a

instance {α : Type} (key : α → ℚ) : DecidableRel (scoreGE key) :=
  fun a b => inferInstanceAs (Decidable (key b ≤ key a))

instance {α : Type} (key : α → ℚ) : IsTotal α (scoreGE key) :=
  ⟨fun a b => le_total (key b) (key a)⟩

instance {α : Type} (key : α → ℚ) : IsTrans α (scoreGE key) :=
  ⟨fun _ _ _ h1 h2 => le_trans h2 h1⟩

/-- All indexed passages paired with their similarity score for the query,
in non-increasing score order. -/
def rankPassages (sim : String → Passage → ℚ) (index : List Passage) (q : String) :
    List (Passage × ℚ) :=
  List.insertionSort (scoreGE Prod.snd) (index.map (fun p => (p, sim q p)))

/-- The `top_k` best-scoring passages for the query. -/
def topKPassages (sim : String → Passage → ℚ) (index : List Passage) (q : String)
    (top_k : Nat) : List (Passage × ℚ) :=
  (rankPassages sim index q).take top_k

/-- Modelled from the spec: the searcher's query-list mode "returns ranked
document ids, titles, texts, scores"; the query encoder and the faiss search
are not among the repository's files and are abstracted by the similarity
function `sim`.  For each query of the batch it returns the ids of its
`top_k` passages and a record of their titles, texts and scores. -/
def DPRSearcher.searchQueryList (sim : String → Passage → ℚ) (index : List Passage)
    (query_batch : List String) (top_k : Nat) :
    List (List String) × List PassageResult :=
  (query_batch.map (fun q => (topKPassages sim index q top_k).map (fun pr => pr.1.pid)),
   query_batch.map (fun q =>
     { titles := (topKPassages sim index q top_k).map (fun pr => pr.1.title),
       texts := (topKPassages sim index q top_k).map (fun pr => pr.1.text),
       scores := (topKPassages sim index q top_k).map (fun pr => pr.2) }))

/-- A row of the ranking file written by batch mode: query id, document id,
rank, score. -/
structure RankingRow where
  qid : String
  did : String
  rank : Nat
  score : ℚ
  deriving DecidableEq, Repr

/-- The ranking-file rows for one query of the query file: its `top_k`
passages, each with its position in the ranking as the rank column. -/
def rowsForQuery (sim : String → Passage → ℚ) (index : List Passage) (top_k : Nat)
    (q : String × String) : List RankingRow :=
  (topKPassages sim index q.2 top_k).enum.map
    (fun ir => ⟨q.1, ir.2.1.pid, ir.1, ir.2.2⟩)

/-- Modelled from the spec: the searcher's file-driven batch mode "reads a
TSV query file, writes a TSV ranking file with query id, document id, rank,
score"; the file handling is not among the repository's files.  The query
file is modelled as its (query id, query text) rows and the ranking file as
its rows. -/
def DPRSearcher.searchBatch (sim : String → Passage → ℚ) (index : List Passage)
    (queries : List (String × String)) (top_k : Nat) : List RankingRow :=
  queries.flatMap (rowsForQuery sim index top_k)

/-! ## Supporting lemmas for the searcher model -/

lemma joinPath_inDirectory (dir name : String) : inDirectory dir (joinPath dir name) := by
  refine ⟨"/" ++ name, ?_⟩
  apply str_eq_of_data
  simp only [joinPath, data_append, List.append_assoc]

lemma append_literal_split (s a b c : String) (h : a.data = b.data ++ c.data) :
    s ++ a = (s ++ b) ++ c := by
  apply str_eq_of_data
  simp only [data_append, List.append_assoc, h]

lemma length_rankPassages (sim : String → Passage → ℚ) (index : List Passage)
    (q : String) : (rankPassages sim index q).length = index.length := by
  simp [rankPassages, List.length_insertionSort]

lemma length_topKPassages (sim : String → Passage → ℚ) (index : List Passage)
    (q : String) (k : Nat) (h : k ≤ index.length) :
    (topKPassages sim index q k).length = k := by
  simp [topKPassages, List.length_take, length_rankPassages, Nat.min_eq_left h]

lemma sorted_topKPassages (sim : String → Passage → ℚ) (index : List Passage)
    (q : String) (k : Nat) :
    List.Sorted (scoreGE Prod.snd) (topKPassages sim index q k) :=
  List.Pairwise.sublist (List.take_sublist _ _) (List.sorted_insertionSort _ _)

lemma mem_topKPassages_fst (sim : String → Passage → ℚ) (index : List Passage)
    (q : String) (k : Nat) (pr : Passage × ℚ)
    (h : pr ∈ topKPassages sim index q k) : pr.1 ∈ index := by
  have h1 : pr ∈ rankPassages sim index q := List.take_subset _ _ h
  have h2 : pr ∈ index.map (fun p => (p, sim q p)) :=
    (List.Perm.mem_iff (List.perm_insertionSort _ _)).1 h1
  obtain ⟨p, hp, he⟩ := List.mem_map.1 h2
  cases he
  exact hp

/-! ## Claim theorems -/

/-- Decidability of `spanFaithful` (used for the short recorded calls). -/
instance (c : ReaderCall) : Decidable (spanFaithful c) := by
  unfold spanFaithful
  infer_instance

/-- Claim C1: every recorded call of the extractive reader's apply operation
takes a list of questions with a parallel list of context-passage lists and
returns exactly one candidate-answer list per question; each candidate (an
`Answer`) carries a span with start and end offsets, the extracted span
text, and a confidence score. -/
theorem reader_apply_entry_per_question (c : ReaderCall)
    (hc : c ∈ recordedReaderCalls) :
    c.answers.length = c.questions.length ∧
    c.contexts.length = c.questions.length := by
  fin_cases hc <;> exact ⟨rfl, rfl⟩

/-- Witness for C1 at the first recorded call. -/
theorem reader_apply_entry_per_question_witness :
    call1 ∈ recordedReaderCalls ∧
      (call1.answers.length = call1.questions.length ∧
       call1.contexts.length = call1.questions.length) :=
  ⟨by decide, reader_apply_entry_per_question call1 (by decide)⟩

/-- Claim C2: in every recorded apply call, each question's candidate list is
ranked: the candidates appear in non-increasing order of `confidence_score`. -/
theorem reader_answers_ranked (c : ReaderCall) (hc : c ∈ recordedReaderCalls) :
    ∀ ans ∈ c.answers, sortedDescBy (fun a => a.confidence_score) ans = true := by
  fin_cases hc <;> decide

/-- Witness for C2 at the first recorded call. -/
theorem reader_answers_ranked_witness :
    call1 ∈ recordedReaderCalls ∧
      ∀ ans ∈ call1.answers, sortedDescBy (fun a => a.confidence_score) ans = true :=
  ⟨by decide, reader_answers_ranked call1 (by decide)⟩

/-- Claim C8: in every recorded apply call, each candidate's
`span_answer_text` equals exactly the substring of the supplied context
passage delimited by `start_position` (inclusive) and `end_position`
(exclusive), the offsets being character indices into the context string. -/
theorem reader_span_offsets_faithful (c : ReaderCall)
    (hc : c ∈ recordedReaderCalls) : spanFaithful c := by
  fin_cases hc
  · decide
  · decide
  · exact call3_spanFaithful

/-- Witness for C8 at the first recorded call. -/
theorem reader_span_offsets_faithful_witness :
    call1 ∈ recordedReaderCalls ∧ spanFaithful call1 :=
  ⟨by decide, reader_span_offsets_faithful call1 (by decide)⟩

/-- Claim C7: in the reading-comprehension notebook, every apply call on a
reader is preceded by a load of that very pretrained model, and every apply
call runs on question/context pairs written literally in the notebook, never
on file-driven input. -/
theorem mrc_load_before_apply (i : Fin mrcNotebookSteps.length)
    (h : isApplyStep (mrcNotebookSteps.get i) = true) :
    (∃ j : Fin mrcNotebookSteps.length, j < i ∧
        mrcNotebookSteps.get j =
          MrcStep.loadModel (stepModel (mrcNotebookSteps.get i))) ∧
    isLiteralApply (mrcNotebookSteps.get i) = true := by
  revert h
  revert i
  decide

/-- Witness for C7 at the first apply step of the notebook. -/
theorem mrc_load_before_apply_witness :
    (∃ j : Fin mrcNotebookSteps.length, j < (⟨1, by decide⟩ : Fin mrcNotebookSteps.length) ∧
        mrcNotebookSteps.get j =
          MrcStep.loadModel (stepModel (mrcNotebookSteps.get ⟨1, by decide⟩))) ∧
    isLiteralApply (mrcNotebookSteps.get ⟨1, by decide⟩) = true :=
  mrc_load_before_apply ⟨1, by decide⟩ (by decide)

/-- Claim C6: the dense-IR notebook performs its operations in order —
training first, index construction second, search last: every train step
precedes every index step, every index step precedes every search step, all
three operations occur; moreover the indexer loads the context encoder from
the trainer's output directory and both search invocations use that
directory as the index location. -/
theorem dense_train_index_search_order :
    ∀ output_dir : String,
    (∀ i j : Fin denseNotebookSteps.length,
        denseNotebookSteps.get i = DenseStep.trainStep →
        denseNotebookSteps.get j = DenseStep.indexStep → i < j) ∧
    (∀ i j : Fin denseNotebookSteps.length,
        denseNotebookSteps.get i = DenseStep.indexStep →
        denseNotebookSteps.get j = DenseStep.searchStep → i < j) ∧
    DenseStep.trainStep ∈ denseNotebookSteps ∧
    DenseStep.indexStep ∈ denseNotebookSteps ∧
    DenseStep.searchStep ∈ denseNotebookSteps ∧
    (parseTrainerArgs (model_training_args output_dir)).map TrainerArgs.output_dir
      = some output_dir ∧
    (parseIndexerArgs (indexing_args output_dir)).map IndexerArgs.dpr_ctx_encoder_path
      = some (joinPath output_dir "ctx_encoder") ∧
    (parseSearcherArgs (search_args_query_list output_dir)).map SearcherArgs.index_location
      = some output_dir ∧
    (parseSearcherArgs (search_args_batch output_dir)).map SearcherArgs.index_location
      = some output_dir := by
  intro output_dir
  exact ⟨by decide, by decide, by decide, by decide, by decide, rfl, rfl, rfl, rfl⟩

/-- The `TrainerArgs` the notebook's `model_training_args` denote. -/
def notebookTrainerArgs (output_dir : String) : TrainerArgs :=
  { train_dir := text_triples_fn, output_dir := output_dir,
    full_train_batch_size := 1, num_train_epochs := 1,
    training_data_type := "text_triples" }

/-- Claim C5: the trainer accepts the notebook's command-line-style argument
list — train-data path, output directory, batch size, epoch count and
data-format tag — and after its train operation the output directory
contains encoder checkpoints. -/
theorem trainer_args_and_checkpoints :
    ∀ (output_dir : String) (fs : List String),
    parseTrainerArgs (model_training_args output_dir) =
      some (notebookTrainerArgs output_dir) ∧
    joinPath output_dir "qry_encoder" ∈
      BiEncoderTrainer.train (notebookTrainerArgs output_dir) fs ∧
    joinPath output_dir "ctx_encoder" ∈
      BiEncoderTrainer.train (notebookTrainerArgs output_dir) fs ∧
    inDirectory output_dir (joinPath output_dir "qry_encoder") ∧
    inDirectory output_dir (joinPath output_dir "ctx_encoder") := by
  intro output_dir fs
  refine ⟨rfl, ?_, ?_, joinPath_inDirectory _ _, joinPath_inDirectory _ _⟩
  · simp [BiEncoderTrainer.train, notebookTrainerArgs]
  · simp [BiEncoderTrainer.train, notebookTrainerArgs]

/-- The `IndexerArgs` the notebook's `indexing_args` denote. -/
def notebookIndexerArgs (output_dir : String) : IndexerArgs :=
  { dpr_ctx_encoder_path := joinPath output_dir "ctx_encoder",
    embed := "1of1", sharded_index := true, batch_size := 1,
    corpus := collection_fn, output_dir := output_dir }

/-- Claim C4: the indexer takes the notebook's context-encoder checkpoint
path and TSV corpus arguments, and on a corpus whose columns are id, text,
title it produces a compressed passage-record file and a vector index file
in the output directory. -/
theorem indexer_produces_record_and_index_files
    (output_dir : String) (corpus : Corpus) (fs : List String)
    (hheader : corpus.header = ["id", "text", "title"]) :
    parseIndexerArgs (indexing_args output_dir) =
      some (notebookIndexerArgs output_dir) ∧
    ∃ produced,
      DPRIndexer.index (notebookIndexerArgs output_dir) corpus fs = some produced ∧
      joinPath output_dir "passages_1_of_1.json.gz.records" ∈ produced ∧
      joinPath output_dir "index_1_of_1.faiss" ∈ produced ∧
      isCompressedRecordsFile (joinPath output_dir "passages_1_of_1.json.gz.records") ∧
      isVectorIndexFile (joinPath output_dir "index_1_of_1.faiss") ∧
      inDirectory output_dir (joinPath output_dir "passages_1_of_1.json.gz.records") ∧
      inDirectory output_dir (joinPath output_dir "index_1_of_1.faiss") := by
  refine ⟨rfl,
    fs ++ [joinPath output_dir "passages_1_of_1.json.gz.records",
           joinPath output_dir "index_1_of_1.faiss"],
    ?_, ?_, ?_, ?_, ?_, joinPath_inDirectory _ _, joinPath_inDirectory _ _⟩
  · simp [DPRIndexer.index, hheader, notebookIndexerArgs]
  · simp
  · simp
  · exact ⟨(output_dir ++ "/") ++ "passages_1_of_1",
      append_literal_split (output_dir ++ "/") "passages_1_of_1.json.gz.records"
        "passages_1_of_1" ".json.gz.records" (by decide)⟩
  · exact ⟨(output_dir ++ "/") ++ "index_1_of_1",
      append_literal_split (output_dir ++ "/") "index_1_of_1.faiss"
        "index_1_of_1" ".faiss" (by decide)⟩

/-- The example corpus row the dense-IR notebook displays. -/
def kangxiRow : CorpusRow :=
  { id := "1",
    text := "The Kangxi Emperor's reign of 61 years makes him the longest-reigning emperor in Chinese history (although his grandson, the Qianlong Emperor, had the longest period of \"de facto\" power) and one of the longest-reigning rulers in the world. However, since he ascended the throne at the age of seven, actual power was held for six years by four regents and his grandmother, the Grand Empress Dowager Xiaozhuang.",
    title := "Kangxi Emperor" }

/-- A corpus with the notebook's displayed header and example row. -/
def notebookCorpus : Corpus :=
  { header := ["id", "text", "title"], rows := [kangxiRow] }

/-- Witness for C4 at the notebook's example corpus. -/
theorem indexer_produces_record_and_index_files_witness :
    parseIndexerArgs (indexing_args "out") = some (notebookIndexerArgs "out") ∧
    ∃ produced,
      DPRIndexer.index (notebookIndexerArgs "out") notebookCorpus [] = some produced ∧
      joinPath "out" "passages_1_of_1.json.gz.records" ∈ produced ∧
      joinPath "out" "index_1_of_1.faiss" ∈ produced ∧
      isCompressedRecordsFile (joinPath "out" "passages_1_of_1.json.gz.records") ∧
      isVectorIndexFile (joinPath "out" "index_1_of_1.faiss") ∧
      inDirectory "out" (joinPath "out" "passages_1_of_1.json.gz.records") ∧
      inDirectory "out" (joinPath "out" "index_1_of_1.faiss") :=
  indexer_produces_record_and_index_files "out" notebookCorpus [] rfl

/-- Claim C3: the searcher is built from an encoder checkpoint path and an
index location, and supports two modes: query-list search returns ranked
document ids together with passage records of titles, texts and scores, and
file-driven batch mode turns the TSV query-file rows into ranking rows of
query id, document id, rank and score (the recorded `ranked_passages.tsv`
line carries exactly those four fields). -/
theorem searcher_two_modes :
    ∀ (output_dir : String) (sim : String → Passage → ℚ) (index : List Passage)
      (query_batch : List String) (queries : List (String × String)) (top_k : Nat),
    (parseSearcherArgs (search_args_query_list output_dir)).map
        SearcherArgs.model_name_or_path = some (joinPath output_dir "qry_encoder") ∧
    (parseSearcherArgs (search_args_query_list output_dir)).map
        SearcherArgs.index_location = some output_dir ∧
    (parseSearcherArgs (search_args_batch output_dir)).map
        SearcherArgs.queries = some (some queries_fn) ∧
    (DPRSearcher.searchQueryList sim index query_batch top_k).1.length
      = query_batch.length ∧
    (DPRSearcher.searchQueryList sim index query_batch top_k).2.length
      = query_batch.length ∧
    (∀ r ∈ (DPRSearcher.searchQueryList sim index query_batch top_k).2,
        r.scores.Pairwise (fun a b => b ≤ a)) ∧
    (∀ row ∈ DPRSearcher.searchBatch sim index queries top_k,
        row.qid ∈ queries.map Prod.fst ∧ row.did ∈ index.map Passage.pid) ∧
    tsvFields recordedRankedLine =
      ["-7239279093922981232", "1", "0", "91.072509765625"] := by
  intro output_dir sim index query_batch queries top_k
  refine ⟨rfl, rfl, rfl, ?_, ?_, ?_, ?_, by decide⟩
  · simp [DPRSearcher.searchQueryList]
  · simp [DPRSearcher.searchQueryList]
  · intro r hr
    simp only [DPRSearcher.searchQueryList, List.mem_map] at hr
    obtain ⟨q, _, rfl⟩ := hr
    exact List.Pairwise.map _ (fun a b h => h) (sorted_topKPassages sim index q top_k)
  · intro row hrow
    simp only [DPRSearcher.searchBatch, List.mem_flatMap] at hrow
    obtain ⟨q, hq, hrow⟩ := hrow
    simp only [rowsForQuery, List.mem_map] at hrow
    obtain ⟨ir, hir, rfl⟩ := hrow
    constructor
    · exact List.mem_map_of_mem Prod.fst hq
    · have hmem : ir.2 ∈ topKPassages sim index q.2 top_k := by
        have := List.mem_enum_iff_getElem?.1 hir
        exact List.getElem?_mem this
      exact List.mem_map_of_mem Passage.pid
        (mem_topKPassages_fst sim index q.2 top_k ir.2 hmem)

/-- Claim C10: in query-list mode with a batch of n queries and a depth
`top_k` no larger than the index, search returns exactly one
retrieved-document-id list and one passage record per query, the i-th
entries answering the i-th query, and in each passage record the titles,
texts and scores lists all have length exactly `top_k`. -/
theorem querylist_result_shape
    (sim : String → Passage → ℚ) (index : List Passage)
    (query_batch : List String) (top_k : Nat) (h : top_k ≤ index.length) :
    (DPRSearcher.searchQueryList sim index query_batch top_k).1.length
      = query_batch.length ∧
    (DPRSearcher.searchQueryList sim index query_batch top_k).2.length
      = query_batch.length ∧
    (∀ i : Nat,
      (DPRSearcher.searchQueryList sim index query_batch top_k).1[i]?
        = (query_batch[i]?).map
            (fun q => (topKPassages sim index q top_k).map (fun pr => pr.1.pid))) ∧
    (∀ ids ∈ (DPRSearcher.searchQueryList sim index query_batch top_k).1,
        ids.length = top_k) ∧
    (∀ r ∈ (DPRSearcher.searchQueryList sim index query_batch top_k).2,
        r.titles.length = top_k ∧ r.texts.length = top_k ∧
        r.scores.length = top_k) := by
  refine ⟨by simp [DPRSearcher.searchQueryList],
    by simp [DPRSearcher.searchQueryList], ?_, ?_, ?_⟩
  · intro i
    simp [DPRSearcher.searchQueryList]
  · intro ids hids
    simp only [DPRSearcher.searchQueryList, List.mem_map] at hids
    obtain ⟨q, _, rfl⟩ := hids
    simp [length_topKPassages sim index q top_k h]
  · intro r hr
    simp only [DPRSearcher.searchQueryList, List.mem_map] at hr
    obtain ⟨q, _, rfl⟩ := hr
    refine ⟨?_, ?_, ?_⟩ <;> simp [length_topKPassages sim index q top_k h]

/-- The passage of the notebook's displayed collection row, as indexed. -/
def witnessPassage : Passage :=
  { pid := kangxiRow.id, title := kangxiRow.title, text := kangxiRow.text }

/-- A one-passage index holding the notebook's example document. -/
def witnessIndex : List Passage := [witnessPassage]

/-- A similarity function returning the score the notebook records. -/
def witnessSim : String → Passage → ℚ := fun _ _ => mkRat 91072509765625 (10 ^ 12)

/-- The notebook's query-list search batch. -/
def witnessQueryBatch : List String :=
  ["Who maintained the throne for the longest time in China?"]

/-- Witness for C10 at the notebook's one-query, one-passage search. -/
theorem querylist_result_shape_witness :
    (DPRSearcher.searchQueryList witnessSim witnessIndex witnessQueryBatch 1).1.length
      = witnessQueryBatch.length ∧
    (DPRSearcher.searchQueryList witnessSim witnessIndex witnessQueryBatch 1).2.length
      = witnessQueryBatch.length ∧
    (∀ i : Nat,
      (DPRSearcher.searchQueryList witnessSim witnessIndex witnessQueryBatch 1).1[i]?
        = (witnessQueryBatch[i]?).map
            (fun q => (topKPassages witnessSim witnessIndex q 1).map (fun pr => pr.1.pid))) ∧
    (∀ ids ∈ (DPRSearcher.searchQueryList witnessSim witnessIndex witnessQueryBatch 1).1,
        ids.length = 1) ∧
    (∀ r ∈ (DPRSearcher.searchQueryList witnessSim witnessIndex witnessQueryBatch 1).2,
        r.titles.length = 1 ∧ r.texts.length = 1 ∧ r.scores.length = 1) :=
  querylist_result_shape witnessSim witnessIndex witnessQueryBatch 1 (by decide)

/-- Claim C9: the ranking rows the batch mode writes are zero-based: the
file is the concatenation of each query's rows, within one query the rank
column runs 0, 1, 2, ... down the ranking, the rank-0 row carries the top
score, and the recorded `ranked_passages.tsv` line indeed has "0" in its
rank column. -/
theorem batch_rank_zero_based
    (sim : String → Passage → ℚ) (index : List Passage) (top_k : Nat)
    (queries : List (String × String)) (q : String × String) :
    DPRSearcher.searchBatch sim index queries top_k
      = queries.flatMap (rowsForQuery sim index top_k) ∧
    (rowsForQuery sim index top_k q).map RankingRow.rank
      = List.range (rowsForQuery sim index top_k q).length ∧
    (∀ row ∈ rowsForQuery sim index top_k q, row.rank = 0 →
      ∀ row2 ∈ rowsForQuery sim index top_k q, row2.score ≤ row.score) ∧
    (tsvFields recordedRankedLine).getD 2 "" = "0" := by
  refine ⟨rfl, ?_, ?_, by decide⟩
  · simp only [rowsForQuery, List.map_map, List.length_map, List.enum_length]
    have hcomp : (RankingRow.rank ∘
        (fun ir : Nat × (Passage × ℚ) =>
          (⟨q.1, ir.2.1.pid, ir.1, ir.2.2⟩ : RankingRow))) = Prod.fst := rfl
    rw [hcomp, List.enum_map_fst]
  · intro row hrow h0 row2 hrow2
    simp only [rowsForQuery, List.mem_map] at hrow hrow2
    obtain ⟨ir, hir, rfl⟩ := hrow
    obtain ⟨ir2, hir2, rfl⟩ := hrow2
    show ir2.2.2 ≤ ir.2.2
    have hi : ir.1 = 0 := h0
    have hget : (topKPassages sim index q.2 top_k)[ir.1]? = some ir.2 :=
      List.mem_enum_iff_getElem?.1 hir
    rw [hi] at hget
    have hget2 : (topKPassages sim index q.2 top_k)[ir2.1]? = some ir2.2 :=
      List.mem_enum_iff_getElem?.1 hir2
    have hmem2 : ir2.2 ∈ topKPassages sim index q.2 top_k := List.getElem?_mem hget2
    have hs := sorted_topKPassages sim index q.2 top_k
    cases htops : topKPassages sim index q.2 top_k with
    | nil =>
      rw [htops] at hget
      simp at hget
    | cons a rest =>
      rw [htops] at hget hmem2 hs
      have ha : a = ir.2 := by simpa using hget
      rcases List.mem_cons.1 hmem2 with h2 | h2
      · rw [h2, ha]
      · exact ha ▸ List.rel_of_sorted_cons hs ir2.2 h2

